import Mathlib

/-
Shallow embedding of the gopos item service (main.go of
akoserwal/multi-containers-dockertest): the Item data model, the gin
request handlers (getItems, getItem, createItem, updateItem, deleteItem,
getStatus), and the bootstrap (initDB, serve).  Handlers are embedded at
two levels: first over the raw database/sql driver outcomes (Exec results,
RowsAffected results, QueryRow-Scan results), exactly mirroring the Go
control flow, and second composed with a model of the PostgreSQL Data
Store (a table of rows plus the id sequence) for end-to-end claims.
-/

namespace GoPOS

/-- The Item record of main.go: `ID int`, `Name string`, `Price int`. -/
structure Item where
  id : Int
  name : String
  price : Int
deriving Repr, DecidableEq

/-- A JSON value, with just enough structure to express the bodies the
service receives: integer numbers, non-integer numbers, strings, booleans
and null. -/
inductive JsonVal where
  | num (n : Int)
  | frac
  | str (s : String)
  | boolean (b : Bool)
  | null
deriving Repr, DecidableEq

/-- A JSON object body: a list of key/value pairs. -/
abbrev JsonObj := List (String × JsonVal)

/-- Look up a field of a JSON object (first occurrence of the key). -/
def lookupField (b : JsonObj) (k : String) : Option JsonVal :=
  (b.find? (fun p => p.1 = k)).map Prod.snd

/-- Go encoding/json decoding of a `string` struct field: an absent field
or JSON null leaves the zero value ""; a JSON string is taken as is; any
other JSON value is an unmarshal type error. -/
def bindStringField (b : JsonObj) (k : String) : Except String String :=
  match lookupField b k with
  | none => Except.ok ""
  | some (JsonVal.str s) => Except.ok s
  | some JsonVal.null => Except.ok ""
  | some _ =>
      Except.error ("json: cannot unmarshal value into Go struct field Item." ++ k)

/-- Go encoding/json decoding of an `int` struct field: an absent field or
JSON null leaves the zero value 0; a JSON integer is taken as is; any
other JSON value (a fractional number, a string, a boolean) is an
unmarshal type error. -/
def bindIntField (b : JsonObj) (k : String) : Except String Int :=
  match lookupField b k with
  | none => Except.ok 0
  | some (JsonVal.num n) => Except.ok n
  | some JsonVal.null => Except.ok 0
  | some _ =>
      Except.error ("json: cannot unmarshal value into Go struct field Item." ++ k)

/-- gin `c.ShouldBindJSON(&item)` for the Item struct.  Item carries no
`binding:"required"` tags, so every field is optional and a missing field
keeps its Go zero value; only a type mismatch fails the bind. -/
def shouldBindJSON (b : JsonObj) : Except String Item :=
  match bindIntField b "id" with
  | Except.error e => Except.error e
  | Except.ok idv =>
    match bindStringField b "name" with
    | Except.error e => Except.error e
    | Except.ok namev =>
      match bindIntField b "price" with
      | Except.error e => Except.error e
      | Except.ok pricev => Except.ok (Item.mk idv namev pricev)

/-- An HTTP response body as the handlers produce it: an error object
`\x7b"error": msg\x7d`, a single Item, a Go slice of Items (None models a
nil slice, Some a non-nil one — they serialize differently), the health
status object, or an empty body (204). -/
inductive Body where
  | jsonError (msg : String)
  | jsonItem (it : Item)
  | jsonArray (s : Option (List Item))
  | jsonStatus (s : String)
  | empty
deriving Repr, DecidableEq

/-- An HTTP response: status code and body. -/
structure Response where
  status : Nat
  body : Body
deriving Repr, DecidableEq

/-- JSON rendering of one Item, as Go encoding/json prints it. -/
def renderItem (it : Item) : String :=
  "\x7b\"id\":" ++ toString it.id ++ ",\"name\":\"" ++ it.name ++
    "\",\"price\":" ++ toString it.price ++ "\x7d"

/-- JSON rendering of a Go `[]Item` slice: a nil slice prints as `null`,
a non-nil slice (even empty) prints as a JSON array. -/
def renderSlice : Option (List Item) → String
  | none => "null"
  | some l => "[" ++ String.intercalate "," (l.map renderItem) ++ "]"

/-- Outcome of `sql.Result.RowsAffected()`: an error, or the count. -/
abbrev RowsAffectedResult := Except String Int

/-- Outcome of `db.Exec(...)`: a driver error, or a Result whose
RowsAffected call may itself fail. -/
abbrev ExecResult := Except String RowsAffectedResult

/-- Outcome of `db.QueryRow(...).Scan(...)`: `sql.ErrNoRows`, another
driver/scan error, or the scanned Item. -/
inductive ScanResult where
  | noRows
  | err (msg : String)
  | ok (it : Item)
deriving Repr, DecidableEq

/-- The updateItem handler over the driver outcomes (main.go lines
122-143): 400 on bind failure; 500 on Exec error; 404 when RowsAffected
errors or returns 0; otherwise 200 echoing the bound item. -/
def updateItemHandler (bind : Except String Item) (exec : ExecResult) : Response :=
  match bind with
  | Except.error e => Response.mk 400 (Body.jsonError e)
  | Except.ok item =>
    match exec with
    | Except.error e => Response.mk 500 (Body.jsonError e)
    | Except.ok ra =>
      match ra with
      | Except.error _ => Response.mk 404 (Body.jsonError "Item not found")
      | Except.ok n =>
          if n = 0 then Response.mk 404 (Body.jsonError "Item not found")
          else Response.mk 200 (Body.jsonItem item)

/-- The deleteItem handler over the driver outcomes (main.go lines
145-160): 500 on Exec error; 404 when RowsAffected errors or returns 0;
otherwise 204 with an empty body. -/
def deleteItemHandler (exec : ExecResult) : Response :=
  match exec with
  | Except.error e => Response.mk 500 (Body.jsonError e)
  | Except.ok ra =>
    match ra with
    | Except.error _ => Response.mk 404 (Body.jsonError "Item not found")
    | Except.ok n =>
        if n = 0 then Response.mk 404 (Body.jsonError "Item not found")
        else Response.mk 204 Body.empty

/-- The getItem handler over the QueryRow-Scan outcome (main.go lines
162-175): 404 on `sql.ErrNoRows`, 500 on any other error, 200 with the
item otherwise. -/
def getItemHandler (scan : ScanResult) : Response :=
  match scan with
  | ScanResult.noRows => Response.mk 404 (Body.jsonError "Item not found")
  | ScanResult.err e => Response.mk 500 (Body.jsonError e)
  | ScanResult.ok it => Response.mk 200 (Body.jsonItem it)

/-- The createItem handler over the driver outcome of
`INSERT ... RETURNING id` scanned into item.ID (main.go lines 106-120):
400 on bind failure; 500 on insert error; 201 with the item whose ID was
overwritten by the returned id otherwise. -/
def createItemHandler (bind : Except String Item) (insert : Except String Int) :
    Response :=
  match bind with
  | Except.error e => Response.mk 400 (Body.jsonError e)
  | Except.ok item =>
    match insert with
    | Except.error e => Response.mk 500 (Body.jsonError e)
    | Except.ok newId =>
        Response.mk 201 (Body.jsonItem (Item.mk newId item.name item.price))

/-- Go slice append on a possibly-nil slice: appending to a nil slice
yields a non-nil one. -/
def goAppend : Option (List Item) → Item → Option (List Item)
  | none, it => some [it]
  | some l, it => some (l ++ [it])

/-- The rows.Next/rows.Scan loop of getItems: stop with the first scan
error, otherwise append each scanned item to the accumulator slice. -/
def scanRows : List (Except String Item) → Option (List Item) →
    Except String (Option (List Item))
  | [], acc => Except.ok acc
  | Except.error e :: _, _ => Except.error e
  | Except.ok it :: rest, acc => scanRows rest (goAppend acc it)

/-- The getItems handler over the driver outcome of
`SELECT id, name, price FROM items` (main.go lines 85-104): 500 on query
error or on any row scan error; otherwise 200 with the accumulated slice,
which starts as the non-nil empty slice `[]Item\x7b\x7d`. -/
def getItemsHandler (q : Except String (List (Except String Item))) : Response :=
  match q with
  | Except.error e => Response.mk 500 (Body.jsonError e)
  | Except.ok rows =>
    match scanRows rows (some []) with
    | Except.error e => Response.mk 500 (Body.jsonError e)
    | Except.ok acc => Response.mk 200 (Body.jsonArray acc)

/-- State of the PostgreSQL Data Store: the items table and the next
value of the id sequence backing the auto-increment primary key. -/
structure DBState where
  table : List Item
  nextId : Int
deriving Repr, DecidableEq

/-- Numeric value of a decimal digit character, none for any other
character. -/
def charDigit (c : Char) : Option Nat :=
  if 48 ≤ c.toNat ∧ c.toNat ≤ 57 then some (c.toNat - 48) else none

/-- Accumulate decimal digits; any non-digit character fails. -/
def digitsAcc : List Char → Nat → Option Nat
  | [], acc => some acc
  | c :: rest, acc =>
    match charDigit c with
    | none => none
    | some d => digitsAcc rest (acc * 10 + d)

/-- Decimal value of a non-empty all-digit character list. -/
def digitsToNat : List Char → Option Nat
  | [] => none
  | cs => digitsAcc cs 0

/-- PostgreSQL cast of a text query parameter to integer, as happens when
the raw `:id` path string is passed to `WHERE id = $1`: an optional sign
followed by at least one decimal digit; any other string raises a
data-store error (modelled as none). -/
def pgParseInt (s : String) : Option Int :=
  match s.data with
  | '-' :: rest => (digitsToNat rest).map (fun n => -(n : Int))
  | '+' :: rest => (digitsToNat rest).map (fun n => (n : Int))
  | cs => (digitsToNat cs).map (fun n => (n : Int))

/-- Data Store semantics of `SELECT id, name, price FROM items WHERE
id = $1` followed by Scan: cast failure is a driver error, zero rows is
`sql.ErrNoRows`, otherwise the first matching row is scanned. -/
def dbSelectById (s : DBState) (idStr : String) : ScanResult :=
  match pgParseInt idStr with
  | none => ScanResult.err ("pq: invalid input syntax for type integer: " ++ idStr)
  | some i =>
    match s.table.find? (fun it => it.id = i) with
    | none => ScanResult.noRows
    | some it => ScanResult.ok it

/-- Data Store semantics of `UPDATE items SET name = $1, price = $2 WHERE
id = $3`: cast failure is a driver error and leaves the table unchanged;
otherwise every matching row is overwritten and the affected-row count is
reported through a successful RowsAffected. -/
def dbExecUpdate (s : DBState) (name : String) (price : Int) (idStr : String) :
    DBState × ExecResult :=
  match pgParseInt idStr with
  | none =>
      (s, Except.error ("pq: invalid input syntax for type integer: " ++ idStr))
  | some i =>
      (DBState.mk
        (s.table.map (fun it => if it.id = i then Item.mk it.id name price else it))
        s.nextId,
       Except.ok (Except.ok ((s.table.filter (fun it => it.id = i)).length : Int)))

/-- Data Store semantics of `DELETE FROM items WHERE id = $1`: cast
failure is a driver error and leaves the table unchanged; otherwise every
matching row is removed and the affected-row count is reported through a
successful RowsAffected. -/
def dbExecDelete (s : DBState) (idStr : String) : DBState × ExecResult :=
  match pgParseInt idStr with
  | none =>
      (s, Except.error ("pq: invalid input syntax for type integer: " ++ idStr))
  | some i =>
      (DBState.mk (s.table.filter (fun it => ¬ it.id = i)) s.nextId,
       Except.ok (Except.ok ((s.table.filter (fun it => it.id = i)).length : Int)))

/-- Data Store semantics of `INSERT INTO items (name, price) VALUES
($1, $2) RETURNING id`: only name and price are sent; the id comes from
the sequence, which then advances. -/
def dbInsert (s : DBState) (name : String) (price : Int) :
    DBState × Except String Int :=
  (DBState.mk (s.table ++ [Item.mk s.nextId name price]) (s.nextId + 1),
   Except.ok s.nextId)

/-- Data Store semantics of `SELECT id, name, price FROM items`: every
row of the table, each scanning successfully. -/
def dbSelectAll (s : DBState) : Except String (List (Except String Item)) :=
  Except.ok (s.table.map Except.ok)

/-- End-to-end GET /items/:id: the raw path string is passed unparsed as
the SQL parameter and the handler maps the Scan outcome. -/
def getItem (s : DBState) (idStr : String) : Response :=
  getItemHandler (dbSelectById s idStr)

/-- End-to-end PUT /items/:id: bind the JSON body first (returning 400
without touching the store on failure), then Exec the UPDATE with the raw
path string and map the outcome. -/
def updateItem (s : DBState) (idStr : String) (body : JsonObj) :
    DBState × Response :=
  match shouldBindJSON body with
  | Except.error e => (s, Response.mk 400 (Body.jsonError e))
  | Except.ok item =>
      let p := dbExecUpdate s item.name item.price idStr
      (p.1, updateItemHandler (Except.ok item) p.2)

/-- End-to-end DELETE /items/:id: Exec the DELETE with the raw path
string and map the outcome. -/
def deleteItem (s : DBState) (idStr : String) : DBState × Response :=
  let p := dbExecDelete s idStr
  (p.1, deleteItemHandler p.2)

/-- End-to-end POST /items: bind the JSON body first (returning 400
without touching the store on failure), then run the INSERT. -/
def createItem (s : DBState) (body : JsonObj) : DBState × Response :=
  match shouldBindJSON body with
  | Except.error e => (s, Response.mk 400 (Body.jsonError e))
  | Except.ok item =>
      let p := dbInsert s item.name item.price
      (p.1, createItemHandler (Except.ok item) p.2)

/-- End-to-end GET /items. -/
def getItems (s : DBState) : Response :=
  getItemsHandler (dbSelectAll s)

/-- GET /health (main.go lines 181-185): a constant 200 with
`\x7b"status":"ok"\x7d`, issuing no Data Store operation — the store
state is passed through untouched. -/
def getStatus (s : DBState) : DBState × Response :=
  (s, Response.mk 200 (Body.jsonStatus "ok"))

/-- An environment: variable name to optional value. -/
abbrev Env := String → Option String

/-- The defaultport constant of main.go. -/
def defaultport : String := "3000"

/-- viper.GetString: the empty string when the variable is unset. -/
def viperGetString (env : Env) (k : String) : String :=
  (env k).getD ""

/-- The GOPOS_PORT read in initDB (main.go lines 201-205): the variable
value, or defaultport when empty.  The result is stored in a local that
initDB never uses again. -/
def goposPort (env : Env) : String :=
  let port := viperGetString env "GOPOS_PORT"
  if port = "" then defaultport else port

/-- The literal address handed to router.Run in serve (main.go line 75). -/
def listenAddr : String := ":8000"

/-- Outcome of initDB: log.Fatal terminates the process, otherwise the
connection is open and pinged. -/
inductive InitOutcome where
  | fatalExit (msg : String)
  | opened
deriving Repr, DecidableEq

/-- initDB (main.go lines 187-228) over the outcomes of sql.Open and
db.Ping: either failing calls log.Fatal, which exits the process before
initDB returns.  The GOPOS_PORT configuration is read (see goposPort) but
plays no further role. -/
def initDB (env : Env) (openErr : Option String) (pingErr : Option String) :
    InitOutcome :=
  let _ := goposPort env
  match openErr with
  | some e => InitOutcome.fatalExit e
  | none =>
    match pingErr with
    | some e => InitOutcome.fatalExit e
    | none => InitOutcome.opened

/-- Outcome of serve: the process exited inside initDB, or it registered
the route table and is listening on an address. -/
inductive ServeOutcome where
  | exited (msg : String)
  | serving (routes : List (String × String)) (addr : String)
deriving Repr, DecidableEq

/-- The fixed route table registered by serve (main.go lines 66-71). -/
def routeTable : List (String × String) :=
  [("GET", "/health"), ("GET", "/items"), ("GET", "/items/:id"),
   ("POST", "/items"), ("PUT", "/items/:id"), ("DELETE", "/items/:id")]

/-- serve (main.go lines 58-83): initDB first — a fatal exit there means
no route is ever registered and nothing is served; otherwise the routes
are registered and the listener runs on the hard-coded listenAddr,
ignoring the environment entirely. -/
def serve (env : Env) (openErr : Option String) (pingErr : Option String) :
    ServeOutcome :=
  match initDB env openErr pingErr with
  | InitOutcome.fatalExit e => ServeOutcome.exited e
  | InitOutcome.opened => ServeOutcome.serving routeTable listenAddr

end GoPOS

namespace GoPOS

/-- C1 (counterexample): when the Exec succeeds but obtaining the
affected-row count fails, updateItem and deleteItem answer 404, not the
500 the claim requires for "every other failure, including a failure to
obtain the affected-row count". -/
theorem C1_rowsAffected_failure_counterexample :
    (updateItemHandler (Except.ok (Item.mk 1 "Widget" 100))
        (Except.ok (Except.error "rows affected unsupported"))).status = 404 ∧
    (deleteItemHandler (Except.ok (Except.error "rows affected unsupported"))).status
      = 404 ∧
    (404 : Nat) ≠ 500 :=
  ⟨rfl, rfl, by decide⟩

/-- C1 (amended): the PUT/DELETE handlers answer 500 exactly when the
Exec itself fails; they answer 404 both when the affected-row count is 0
and when obtaining the affected-row count fails; a positive count yields
200 (PUT) or 204 (DELETE). -/
theorem C1_amended_status_map (item : Item) (e : String) (n : Int) :
    (updateItemHandler (Except.ok item) (Except.error e)).status = 500 ∧
    (updateItemHandler (Except.ok item) (Except.ok (Except.error e))).status = 404 ∧
    (updateItemHandler (Except.ok item) (Except.ok (Except.ok n))).status
      = (if n = 0 then 404 else 200) ∧
    (deleteItemHandler (Except.error e)).status = 500 ∧
    (deleteItemHandler (Except.ok (Except.error e))).status = 404 ∧
    (deleteItemHandler (Except.ok (Except.ok n))).status
      = (if n = 0 then 404 else 204) := by
  refine ⟨rfl, rfl, ?_, rfl, rfl, ?_⟩ <;> by_cases h : n = 0 <;>
    simp [updateItemHandler, deleteItemHandler, h]

/-- C2 (counterexample): running the spec scenario PUT /items/1 with body
name Widget2, price 150 on a store holding item 1, the handler answers
200 but echoes the bound body whose id field is 0, not the path id 1. -/
theorem C2_put_echoes_body_counterexample :
    (updateItem (DBState.mk [Item.mk 1 "Widget" 100] 2) "1"
        [("name", JsonVal.str "Widget2"), ("price", JsonVal.num 150)]).2
      = Response.mk 200 (Body.jsonItem (Item.mk 0 "Widget2" 150)) ∧
    (Item.mk 0 "Widget2" 150).id ≠ 1 :=
  ⟨rfl, by decide⟩

/-- C2 (amended): for every PUT /items/:id with a body that binds to an
item, on an id present in the table, the handler answers 200 with exactly
the bound item — name and price from the body, id the body's id field (0
when absent), not the path id — while the stored row does keep the path
id with the new name and price. -/
theorem C2_put_existing_id_amended (s : DBState) (idStr : String) (i : Int)
    (body : JsonObj) (item r : Item)
    (hparse : pgParseInt idStr = some i) (hr : r ∈ s.table) (hid : r.id = i)
    (hbind : shouldBindJSON body = Except.ok item) :
    (updateItem s idStr body).2 = Response.mk 200 (Body.jsonItem item) ∧
    Item.mk i item.name item.price ∈ (updateItem s idStr body).1.table := by
  have hfil : r ∈ s.table.filter (fun it => it.id = i) := by
    rw [List.mem_filter]
    exact ⟨hr, by simp [hid]⟩
  have hne : (s.table.filter (fun it => it.id = i)).length ≠ 0 := by
    intro h0
    rw [List.length_eq_zero] at h0
    rw [h0] at hfil
    exact absurd hfil (List.not_mem_nil r)
  constructor
  · have hcast : ¬ (((s.table.filter (fun it => it.id = i)).length : Int) = 0) := by
      exact_mod_cast hne
    simp [updateItem, hbind, dbExecUpdate, hparse, updateItemHandler, hcast]
  · have hmem := List.mem_map_of_mem
      (fun it => if it.id = i then Item.mk it.id item.name item.price else it) hr
    simp [updateItem, hbind, dbExecUpdate, hparse]
    simpa [hid] using hmem

/-- C2 (witness): the amended statement at the spec scenario input — the
response echoes id 0 and the stored row 1 carries the new name/price. -/
theorem C2_put_existing_id_witness :
    (updateItem (DBState.mk [Item.mk 1 "Widget" 100] 2) "1"
        [("name", JsonVal.str "Widget2"), ("price", JsonVal.num 150)]).2
      = Response.mk 200 (Body.jsonItem (Item.mk 0 "Widget2" 150)) ∧
    Item.mk 1 "Widget2" 150
      ∈ (updateItem (DBState.mk [Item.mk 1 "Widget" 100] 2) "1"
          [("name", JsonVal.str "Widget2"), ("price", JsonVal.num 150)]).1.table :=
  C2_put_existing_id_amended (DBState.mk [Item.mk 1 "Widget" 100] 2) "1" 1
    [("name", JsonVal.str "Widget2"), ("price", JsonVal.num 150)]
    (Item.mk 0 "Widget2" 150) (Item.mk 1 "Widget" 100)
    rfl (List.mem_singleton.mpr rfl) rfl rfl

/-- C3 (counterexample): a POST body with no name field at all binds
successfully (Item has no required-binding tags), so the handler answers
201 and a row with the empty name is created — not the 400 with no row
the claim requires. -/
theorem C3_missing_name_counterexample :
    createItem (DBState.mk [] 1) [("price", JsonVal.num 100)]
      = (DBState.mk [Item.mk 1 "" 100] 2,
         Response.mk 201 (Body.jsonItem (Item.mk 1 "" 100))) ∧
    (DBState.mk [Item.mk 1 "" 100] 2).table ≠ (DBState.mk [] 1).table ∧
    (201 : Nat) ≠ 400 :=
  ⟨rfl, by decide, by decide⟩

/-- C3 (amended): a POST whose body fails the JSON bind — a
type-mismatched field such as a non-integer price, but not a merely
missing name, which binds to the empty string — answers 400 and performs
no store operation: the state is returned unchanged. -/
theorem C3_bind_failure_amended (s : DBState) (body : JsonObj) (e : String)
    (hbind : shouldBindJSON body = Except.error e) :
    createItem s body = (s, Response.mk 400 (Body.jsonError e)) := by
  simp [createItem, hbind]

/-- C3 (witness): the amended statement at a body whose price is the JSON
string "abc". -/
theorem C3_bind_failure_witness :
    createItem (DBState.mk [] 1) [("price", JsonVal.str "abc")]
      = (DBState.mk [] 1,
         Response.mk 400 (Body.jsonError
           "json: cannot unmarshal value into Go struct field Item.price")) :=
  C3_bind_failure_amended (DBState.mk [] 1) [("price", JsonVal.str "abc")]
    "json: cannot unmarshal value into Go struct field Item.price" rfl

end GoPOS

namespace GoPOS

/-- C4 (confirmed): for every integer id with no matching row, GET, PUT
(with a body that binds) and DELETE on /items/:id all answer 404 and
never 500; moreover the GET handler answers 404 exactly on
`sql.ErrNoRows` and 500 on every other data-store error. -/
theorem C4_missing_id_not_found (s : DBState) (idStr : String) (i : Int)
    (body : JsonObj) (item : Item)
    (hparse : pgParseInt idStr = some i)
    (habsent : ∀ it ∈ s.table, it.id ≠ i)
    (hbind : shouldBindJSON body = Except.ok item) :
    ((getItem s idStr).status = 404 ∧ (getItem s idStr).status ≠ 500) ∧
    ((updateItem s idStr body).2.status = 404 ∧
      (updateItem s idStr body).2.status ≠ 500) ∧
    ((deleteItem s idStr).2.status = 404 ∧
      (deleteItem s idStr).2.status ≠ 500) ∧
    (∀ r : ScanResult, (getItemHandler r).status = 404 ↔ r = ScanResult.noRows) ∧
    (∀ e : String, (getItemHandler (ScanResult.err e)).status = 500) := by
  have hfind : s.table.find? (fun it => it.id = i) = none := by
    apply List.find?_eq_none.mpr
    intro x hx
    simp [habsent x hx]
  have hfil : s.table.filter (fun it => it.id = i) = [] := by
    apply List.filter_eq_nil_iff.mpr
    intro x hx
    simp [habsent x hx]
  refine ⟨?_, ?_, ?_, ?_, ?_⟩
  · constructor <;>
      simp [getItem, dbSelectById, hparse, hfind, getItemHandler]
  · constructor <;>
      simp [updateItem, hbind, dbExecUpdate, hparse, hfil, updateItemHandler]
  · constructor <;>
      simp [deleteItem, dbExecDelete, hparse, hfil, deleteItemHandler]
  · intro r
    cases r <;> simp [getItemHandler]
  · intro e
    rfl

/-- C4 (witness): on a store holding only item 1, requests for id 5
answer 404 from all three routes. -/
theorem C4_missing_id_not_found_witness :
    (getItem (DBState.mk [Item.mk 1 "a" 2] 2) "5").status = 404 ∧
    (updateItem (DBState.mk [Item.mk 1 "a" 2] 2) "5"
        [("name", JsonVal.str "n"), ("price", JsonVal.num 3)]).2.status = 404 ∧
    (deleteItem (DBState.mk [Item.mk 1 "a" 2] 2) "5").2.status = 404 :=
  ⟨(C4_missing_id_not_found (DBState.mk [Item.mk 1 "a" 2] 2) "5" 5
      [("name", JsonVal.str "n"), ("price", JsonVal.num 3)] (Item.mk 0 "n" 3)
      rfl (by decide) rfl).1.1,
   (C4_missing_id_not_found (DBState.mk [Item.mk 1 "a" 2] 2) "5" 5
      [("name", JsonVal.str "n"), ("price", JsonVal.num 3)] (Item.mk 0 "n" 3)
      rfl (by decide) rfl).2.1.1,
   (C4_missing_id_not_found (DBState.mk [Item.mk 1 "a" 2] 2) "5" 5
      [("name", JsonVal.str "n"), ("price", JsonVal.num 3)] (Item.mk 0 "n" 3)
      rfl (by decide) rfl).2.2.1.1⟩

/-- C5 (confirmed): serve listens on the hard-coded ":8000" whatever the
environment holds — its outcome is independent of the environment and
every serving outcome carries listenAddr = ":8000" — while GOPOS_PORT is
read with default "3000" and never applied. -/
theorem C5_listener_port_fixed :
    (∀ (env env2 : Env) (oe pe : Option String), serve env oe pe = serve env2 oe pe) ∧
    (∀ (env : Env) (oe pe : Option String) (r : List (String × String)) (a : String),
        serve env oe pe = ServeOutcome.serving r a → a = listenAddr) ∧
    listenAddr = ":8000" ∧
    goposPort (fun _ => none) = defaultport ∧ defaultport = "3000" := by
  refine ⟨?_, ?_, rfl, rfl, rfl⟩
  · intro env env2 oe pe
    cases oe <;> cases pe <;> rfl
  · intro env oe pe r a h
    cases oe with
    | some e => simp [serve, initDB] at h
    | none =>
      cases pe with
      | some e => simp [serve, initDB] at h
      | none =>
        simp [serve, initDB] at h
        exact h.2.symm

/-- C5 (witness): a concrete successful bootstrap serves on ":8000". -/
theorem C5_listener_port_fixed_witness : (":8000" : String) = listenAddr :=
  C5_listener_port_fixed.2.1 (fun _ => none) none none routeTable ":8000" rfl

/-- C6 (confirmed): if sql.Open or db.Ping fails, serve ends in the
exited outcome — log.Fatal inside initDB — and never reaches a serving
outcome, so no route is registered and nothing is served. -/
theorem C6_startup_failure_fatal (env : Env) (oe pe : Option String)
    (h : oe ≠ none ∨ pe ≠ none) :
    (∃ m, serve env oe pe = ServeOutcome.exited m) ∧
    (∀ (r : List (String × String)) (a : String),
        serve env oe pe ≠ ServeOutcome.serving r a) := by
  cases oe with
  | some e =>
    refine ⟨⟨e, by simp [serve, initDB]⟩, ?_⟩
    intro r a hc
    simp [serve, initDB] at hc
  | none =>
    cases pe with
    | some e =>
      refine ⟨⟨e, by simp [serve, initDB]⟩, ?_⟩
      intro r a hc
      simp [serve, initDB] at hc
    | none =>
      cases h with
      | inl h1 => exact absurd rfl h1
      | inr h2 => exact absurd rfl h2

/-- C6 (witness): a failed open exits with that message and serves
nothing. -/
theorem C6_startup_failure_fatal_witness :
    ∃ m, serve (fun _ => none) (some "connection refused") none
      = ServeOutcome.exited m :=
  (C6_startup_failure_fatal (fun _ => none) (some "connection refused") none
    (Or.inl (by simp))).1

/-- C7 (confirmed): GET /health answers 200 with the status-ok object on
every store state, leaves the store untouched, and its response does not
depend on the store at all. -/
theorem C7_health_constant (s : DBState) :
    getStatus s = (s, Response.mk 200 (Body.jsonStatus "ok")) ∧
    (getStatus s).1 = s ∧
    (∀ s2 : DBState, (getStatus s).2 = (getStatus s2).2) :=
  ⟨rfl, rfl, fun _ => rfl⟩

/-- C8 (confirmed): on an empty table the query succeeds and GET /items
answers 200 with the non-nil empty slice, which renders as the JSON array
"[]" and not as "null". -/
theorem C8_empty_table_yields_empty_array (n : Int) :
    getItems (DBState.mk [] n) = Response.mk 200 (Body.jsonArray (some [])) ∧
    renderSlice (some []) = "[]" ∧ renderSlice none = "null" ∧
    renderSlice (some []) ≠ renderSlice none :=
  ⟨rfl, rfl, rfl, by decide⟩

/-- C9 (confirmed): when the :id path segment is not a valid integer, the
raw string reaches the store as the SQL parameter, the cast fails as a
data-store error, and GET, PUT (with a body that binds) and DELETE all
answer 500 — never the 400 of a client-side validation. -/
theorem C9_invalid_id_maps_to_500 (s : DBState) (idStr : String)
    (body : JsonObj) (item : Item)
    (hparse : pgParseInt idStr = none)
    (hbind : shouldBindJSON body = Except.ok item) :
    ((getItem s idStr).status = 500 ∧ (getItem s idStr).status ≠ 400) ∧
    ((updateItem s idStr body).2.status = 500 ∧
      (updateItem s idStr body).2.status ≠ 400) ∧
    ((deleteItem s idStr).2.status = 500 ∧
      (deleteItem s idStr).2.status ≠ 400) := by
  refine ⟨⟨?_, ?_⟩, ⟨?_, ?_⟩, ⟨?_, ?_⟩⟩ <;>
    simp [getItem, updateItem, deleteItem, dbSelectById, dbExecUpdate,
      dbExecDelete, hparse, hbind, getItemHandler, updateItemHandler,
      deleteItemHandler]

/-- C9 (witness): the path segment "abc" yields 500 on all three
routes. -/
theorem C9_invalid_id_maps_to_500_witness :
    ((getItem (DBState.mk [] 1) "abc").status = 500 ∧
      (getItem (DBState.mk [] 1) "abc").status ≠ 400) ∧
    ((updateItem (DBState.mk [] 1) "abc"
        [("name", JsonVal.str "n"), ("price", JsonVal.num 3)]).2.status = 500 ∧
      (updateItem (DBState.mk [] 1) "abc"
        [("name", JsonVal.str "n"), ("price", JsonVal.num 3)]).2.status ≠ 400) ∧
    ((deleteItem (DBState.mk [] 1) "abc").2.status = 500 ∧
      (deleteItem (DBState.mk [] 1) "abc").2.status ≠ 400) :=
  C9_invalid_id_maps_to_500 (DBState.mk [] 1) "abc"
    [("name", JsonVal.str "n"), ("price", JsonVal.num 3)] (Item.mk 0 "n" 3)
    rfl rfl

/-- C10 (confirmed): for every POST body that binds, the INSERT sends
only name and price, the created row and the 201 response both carry the
store-assigned sequence id — whatever id the body supplied — and the
sequence advances. -/
theorem C10_insert_ignores_body_id (s : DBState) (body : JsonObj) (item : Item)
    (hbind : shouldBindJSON body = Except.ok item) :
    (createItem s body).2
      = Response.mk 201 (Body.jsonItem (Item.mk s.nextId item.name item.price)) ∧
    (createItem s body).1.table
      = s.table ++ [Item.mk s.nextId item.name item.price] ∧
    (createItem s body).1.nextId = s.nextId + 1 := by
  simp [createItem, hbind, dbInsert, createItemHandler]

/-- C10 (witness): a body claiming id 99 still creates and returns the
sequence id 1. -/
theorem C10_insert_ignores_body_id_witness :
    (createItem (DBState.mk [] 1)
        [("id", JsonVal.num 99), ("name", JsonVal.str "x"), ("price", JsonVal.num 5)]).2
      = Response.mk 201 (Body.jsonItem (Item.mk 1 "x" 5)) :=
  (C10_insert_ignores_body_id (DBState.mk [] 1)
    [("id", JsonVal.num 99), ("name", JsonVal.str "x"), ("price", JsonVal.num 5)]
    (Item.mk 99 "x" 5) rfl).1

end GoPOS
